import Mathlib

/-
Verification of the Resume vs Job Description Evaluator frontend
(static/script.js) against its design specification.

The frontend is modelled shallowly: JavaScript strings are lists of
characters, the DOM elements touched by the script are fields of an
explicit UI-state record, and the single asynchronous fetch to the
/evaluate endpoint is modelled by a parameter describing its outcome.
The backend similarity engine (app.py) is not part of the sources;
its cosine similarity function is modelled from the specification.
-/

/-- JavaScript strings are modelled as lists of characters, so that
string primitives (trim, length, comparison) compute by structural
recursion. -/
abbrev JSString := List Char

/-- Model of JavaScript `String.prototype.trim`: remove leading and
trailing whitespace. -/
def jsTrim (s : JSString) : JSString :=
  ((s.dropWhile Char.isWhitespace).reverse.dropWhile Char.isWhitespace).reverse

/-- Helper for substring search: does `s` start with `pat`? -/
def listStartsWith (pat s : List Char) : Bool :=
  match pat, s with
  | [], _ => true
  | _ :: _, [] => false
  | p :: ps, c :: cs => p == c && listStartsWith ps cs

/-- Helper for substring search: does `pat` occur contiguously in `s`? -/
def listHasSub (pat s : List Char) : Bool :=
  match s with
  | [] => pat.isEmpty
  | _ :: t => listStartsWith pat s || listHasSub pat t

/-- Case-sensitive substring test on Lean string literals, used to state
properties of the UI messages. -/
def strContains (s pat : String) : Bool :=
  listHasSub pat.toList s.toList

/-- Case-insensitive variant: the message is lower-cased (as JavaScript
`toLowerCase` would) before searching for the lower-case pattern. -/
def strContainsLower (s pat : String) : Bool :=
  listHasSub pat.toList (s.toList.map Char.toLower)

/-- Result shape of `validateInputs` in script.js: an object with a
`valid` flag and, on failure, a `message` string. -/
structure ValidationResult where
  valid : Bool
  message : Option String
deriving DecidableEq

/-- Message literal from script.js for a missing job description. -/
def msgMissingJobDescription : String := "Please enter a job description"

/-- Message literal from script.js for a missing resume. -/
def msgMissingResume : String := "Please enter a resume"

/-- Message literal from script.js for a too-short job description. -/
def msgJobDescriptionTooShort : String :=
  "Job description is too short. Please provide at least 50 characters."

/-- Message literal from script.js for a too-short resume. -/
def msgResumeTooShort : String :=
  "Resume is too short. Please provide at least 50 characters."

/-- Embedding of `validateInputs(jobDesc, resume)` from script.js.
The JavaScript falsiness test `!jobDesc` on a string is emptiness. -/
def validateInputs (jobDesc resume : JSString) : ValidationResult :=
  if jobDesc.isEmpty || ((jsTrim jobDesc).length == 0) then
    { valid := false, message := some msgMissingJobDescription }
  else if resume.isEmpty || ((jsTrim resume).length == 0) then
    { valid := false, message := some msgMissingResume }
  else if (jsTrim jobDesc).length < 50 then
    { valid := false, message := some msgJobDescriptionTooShort }
  else if (jsTrim resume).length < 50 then
    { valid := false, message := some msgResumeTooShort }
  else
    { valid := true, message := none }

/-- Parsed JSON body of a successful /evaluate response, as consumed by
`displayResults` in script.js. -/
structure EvalData where
  match_score : ℚ
  verdict : String
  strengths : List String
  gaps : List String
  reasons_for : List String
  reasons_against : List String
  improvement_suggestions : List String
deriving DecidableEq

/-- The pieces of DOM state that script.js reads or writes: visibility
of the error message, loading indicator and results section, the
disabled flag of the evaluate button, and the rendered result fields. -/
structure UIState where
  errorVisible : Bool
  errorText : String
  loadingVisible : Bool
  resultsVisible : Bool
  buttonDisabled : Bool
  scoreColor : String
  verdictText : String
  strengthsShown : List String
  gapsShown : List String
  reasonsForShown : List String
  reasonsAgainstShown : List String
  suggestionsShown : List String
deriving DecidableEq

/-- UI state after the initialisation lines at the bottom of script.js:
results, loading and error all hidden, button enabled. -/
def initUI : UIState :=
  { errorVisible := false
    errorText := ""
    loadingVisible := false
    resultsVisible := false
    buttonDisabled := false
    scoreColor := ""
    verdictText := ""
    strengthsShown := []
    gapsShown := []
    reasonsForShown := []
    reasonsAgainstShown := []
    suggestionsShown := [] }

/-- Embedding of `showError(message)`: set the error text, reveal the
error element, hide the loading indicator and the results section. -/
def showError (message : String) (s : UIState) : UIState :=
  { s with errorText := message
           errorVisible := true
           loadingVisible := false
           resultsVisible := false }

/-- Embedding of `hideError()`. -/
def hideError (s : UIState) : UIState :=
  { s with errorVisible := false }

/-- Embedding of `showLoading()`: reveal the loading indicator, hide the
results section, then hide the error message. -/
def showLoading (s : UIState) : UIState :=
  hideError { s with loadingVisible := true, resultsVisible := false }

/-- Embedding of `hideLoading()`. -/
def hideLoading (s : UIState) : UIState :=
  { s with loadingVisible := false }

/-- Easing function from `animateScore` in script.js. -/
def easeOutCubic (t : ℚ) : ℚ := 1 - (1 - t) ^ 3

/-- Colour applied to the displayed score by `animateScore`, as a
function of the currently displayed score value. -/
def scoreColorAt (currentScore : ℚ) : String :=
  if 75 ≤ currentScore then "#10b981"
  else if 50 ≤ currentScore then "#f59e0b"
  else "#ef4444"

/-- Score value shown by one animation frame of `animateScore`: the
progress fraction is capped at 1, eased, and scaled by the target. -/
def animateScoreFrame (targetScore progress : ℚ) : ℚ :=
  easeOutCubic (min progress 1) * targetScore

/-- Colour of the score once the animation has completed (progress 1). -/
def animateScoreFinalColor (targetScore : ℚ) : String :=
  scoreColorAt (animateScoreFrame targetScore 1)

/-- Embedding of `displayResults(data)`: render every result field,
hide the loading indicator, reveal the results section. The score
colour recorded is the one the animation ends on. -/
def displayResults (data : EvalData) (s : UIState) : UIState :=
  let s1 := { s with
    scoreColor := animateScoreFinalColor data.match_score
    verdictText := data.verdict
    strengthsShown := data.strengths
    gapsShown := data.gaps
    reasonsForShown := data.reasons_for
    reasonsAgainstShown := data.reasons_against
    suggestionsShown := data.improvement_suggestions }
  let s2 := hideLoading s1
  { s2 with resultsVisible := true }

/-- Outcome of the fetch to /evaluate as observed by evaluateResume:
an ok response with parsed data, a non-ok response whose JSON body may
carry an `error` field, or a thrown exception (network or JSON parse
failure) whose message may be absent. -/
inductive FetchOutcome where
  | success (data : EvalData)
  | httpError (errField : Option String)
  | jsError (msg : Option String)
deriving DecidableEq

/-- JavaScript `x || fallback` on an optional string: the fallback is
used when the value is absent or empty. -/
def jsOrElse (v : Option String) (fallback : String) : String :=
  match v with
  | some x => if x = "" then fallback else x
  | none => fallback

/-- JSON body POSTed to /evaluate by evaluateResume. -/
structure RequestBody where
  job_description : JSString
  resume : JSString
deriving DecidableEq

/-- Observable effect of one run of evaluateResume: the final UI state
and the list of network requests issued. -/
structure EvalTrace where
  finalState : UIState
  requests : List RequestBody
deriving DecidableEq

/-- Embedding of `evaluateResume()` from script.js. The textarea values
are the two string arguments; the fetch outcome is a parameter. On
validation failure the function shows the error and returns without
fetching. Otherwise it shows the loading indicator, disables the
button, issues the request with the raw textarea values, and either
displays the results or shows the caught error; the `finally` block
re-enables the button on every fetching path. -/
def evaluateResume (s0 : UIState) (jobDescription resume : JSString)
    (outcome : FetchOutcome) : EvalTrace :=
  let validation := validateInputs jobDescription resume
  if validation.valid = false then
    { finalState := showError (validation.message.getD "") s0, requests := [] }
  else
    let s1 := { (showLoading s0) with buttonDisabled := true }
    let req : RequestBody := { job_description := jobDescription, resume := resume }
    match outcome with
    | FetchOutcome.success data =>
        let s2 := displayResults data s1
        { finalState := { s2 with buttonDisabled := false }, requests := [req] }
    | FetchOutcome.httpError errField =>
        let thrownMsg := jsOrElse errField "An error occurred during evaluation"
        let s2 := showError
          (jsOrElse (some thrownMsg)
            "Failed to evaluate. Please check your connection and try again.") s1
        { finalState := { s2 with buttonDisabled := false }, requests := [req] }
    | FetchOutcome.jsError m =>
        let s2 := showError
          (jsOrElse m
            "Failed to evaluate. Please check your connection and try again.") s1
        { finalState := { s2 with buttonDisabled := false }, requests := [req] }

/-- Error raised by the similarity engine on vectors of differing
dimension. -/
inductive SimError where
  | DimensionMismatch
deriving DecidableEq

/-- Dot product of two real vectors. -/
def dotProduct (a b : List ℝ) : ℝ :=
  (List.zipWith (fun x y => x * y) a b).sum

/-- Euclidean magnitude of a real vector. -/
noncomputable def vecNorm (a : List ℝ) : ℝ :=
  Real.sqrt (dotProduct a a)

/-- Modelled from the spec: the repository's backend similarity engine
(app.py, not among the sources) computes
`cosine_similarity(a, b) = dot(a, b) / (norm a * norm b)`, fails with
DimensionMismatch when the vectors differ in length, and returns 0
similarity instead of dividing by zero when either vector has zero
magnitude. -/
noncomputable def cosine_similarity (a b : List ℝ) : Except SimError ℝ :=
  if a.length = b.length then
    if vecNorm a = 0 ∨ vecNorm b = 0 then Except.ok 0
    else Except.ok (dotProduct a b / (vecNorm a * vecNorm b))
  else Except.error SimError.DimensionMismatch

/-- The emptiness test in each of the first two validation conditions is
redundant: an empty string also has trimmed length zero. -/
theorem jsEmpty_check (l : JSString) :
    (l.isEmpty || ((jsTrim l).length == 0)) = ((jsTrim l).length == 0) := by
  cases l <;> rfl

/-- Arithmetic characterisation of validateInputs in terms of the
trimmed lengths of the two fields. -/
theorem validateInputs_eq_spec (jd r : JSString) :
    validateInputs jd r =
      (if (jsTrim jd).length = 0 then
        { valid := false, message := some msgMissingJobDescription }
      else if (jsTrim r).length = 0 then
        { valid := false, message := some msgMissingResume }
      else if (jsTrim jd).length < 50 then
        { valid := false, message := some msgJobDescriptionTooShort }
      else if (jsTrim r).length < 50 then
        { valid := false, message := some msgResumeTooShort }
      else ({ valid := true, message := none } : ValidationResult)) := by
  unfold validateInputs
  rw [jsEmpty_check, jsEmpty_check]
  simp only [beq_iff_eq]

/-- Validation succeeds exactly when both trimmed lengths reach 50. -/
theorem validateInputs_valid_iff (jd r : JSString) :
    (validateInputs jd r).valid = true ↔
      50 ≤ (jsTrim jd).length ∧ 50 ≤ (jsTrim r).length := by
  rw [validateInputs_eq_spec]
  split_ifs with h1 h2 h3 h4 <;> simp <;> omega

/-- C2: validateInputs checks the four validation conditions in exactly
this order, returning the first failure: missing/empty job_description,
then missing/empty resume, then job_description trimmed length < 50,
then resume trimmed length < 50; in particular, when both fields are
empty the job_description error is returned, and when both are
non-empty but both too short the job_description too-short error is
returned. -/
theorem validateInputs_first_failure_wins (jd r : JSString) :
    ((jsTrim jd).length = 0 →
      validateInputs jd r
        = { valid := false, message := some msgMissingJobDescription }) ∧
    ((jsTrim jd).length ≠ 0 → (jsTrim r).length = 0 →
      validateInputs jd r
        = { valid := false, message := some msgMissingResume }) ∧
    ((jsTrim jd).length ≠ 0 → (jsTrim r).length ≠ 0 →
        (jsTrim jd).length < 50 →
      validateInputs jd r
        = { valid := false, message := some msgJobDescriptionTooShort }) ∧
    (50 ≤ (jsTrim jd).length → (jsTrim r).length ≠ 0 →
        (jsTrim r).length < 50 →
      validateInputs jd r
        = { valid := false, message := some msgResumeTooShort }) ∧
    (50 ≤ (jsTrim jd).length → 50 ≤ (jsTrim r).length →
      validateInputs jd r = { valid := true, message := none }) := by
  rw [validateInputs_eq_spec]
  refine ⟨?_, ?_, ?_, ?_, ?_⟩ <;> intros <;> split_ifs <;>
    first | rfl | omega

/-- Witness for C2: with both fields empty the job-description error is
returned, and with both fields 49 characters the job-description
too-short error is returned. -/
theorem validateInputs_first_failure_wins_witness :
    validateInputs [] []
      = { valid := false, message := some msgMissingJobDescription } ∧
    validateInputs (List.replicate 49 'a') (List.replicate 49 'b')
      = { valid := false, message := some msgJobDescriptionTooShort } :=
  ⟨(validateInputs_first_failure_wins [] []).1 (by decide),
   (validateInputs_first_failure_wins
      (List.replicate 49 'a') (List.replicate 49 'b')).2.2.1
     (by decide) (by decide) (by decide)⟩

/-- C1: for every pair of input texts, if either is empty after
trimming or has trimmed length below 50, then evaluateResume shows the
validation error and returns without issuing any network request to
/evaluate. -/
theorem evaluateResume_rejects_invalid_without_fetch
    (s0 : UIState) (jd r : JSString) (o : FetchOutcome)
    (h : (jsTrim jd).length < 50 ∨ (jsTrim r).length < 50) :
    (evaluateResume s0 jd r o).requests = [] ∧
    (evaluateResume s0 jd r o).finalState.errorVisible = true ∧
    (evaluateResume s0 jd r o).finalState.errorText
      = ((validateInputs jd r).message).getD "" := by
  have hv : (validateInputs jd r).valid = false := by
    rcases Bool.eq_false_or_eq_true (validateInputs jd r).valid with h' | h'
    · rcases (validateInputs_valid_iff jd r).mp h' with ⟨hj, hr⟩
      omega
    · exact h'
  refine ⟨?_, ?_, ?_⟩ <;> simp [evaluateResume, hv, showError]

/-- Witness for C1: a 20-character job description is rejected and no
request is issued, even though the modelled fetch would succeed. -/
theorem evaluateResume_rejects_invalid_without_fetch_witness :
    ((jsTrim (List.replicate 20 'a')).length < 50 ∨
      (jsTrim (List.replicate 60 'b')).length < 50) ∧
    (evaluateResume initUI (List.replicate 20 'a') (List.replicate 60 'b')
      (FetchOutcome.jsError none)).requests = [] :=
  ⟨by decide,
   (evaluateResume_rejects_invalid_without_fetch initUI
      (List.replicate 20 'a') (List.replicate 60 'b')
      (FetchOutcome.jsError none) (by decide)).1⟩

/-- Counterexample to C3 as stated: a non-empty job description of
trimmed length exactly 49 does not guarantee a message containing
"too short", because an empty resume is reported first. -/
theorem validateInputs_49_not_always_too_short :
    (jsTrim (List.replicate 49 'a')).length = 49 ∧
    (validateInputs (List.replicate 49 'a') []).valid = false ∧
    strContains
      ((validateInputs (List.replicate 49 'a') []).message.getD "")
      "too short" = false := by
  refine ⟨by decide, by decide, by decide⟩

/-- C3 amended: provided the other field is non-empty after trimming, a
field of trimmed length exactly 49 makes validateInputs return invalid
with a message containing "too short", while at trimmed length exactly
50 that field's length check passes (its too-short message is never
returned). -/
theorem validateInputs_length_boundary (jd r : JSString) :
    ((jsTrim jd).length = 49 → (jsTrim r).length ≠ 0 →
      (validateInputs jd r).valid = false ∧
      strContains ((validateInputs jd r).message.getD "") "too short"
        = true) ∧
    ((jsTrim jd).length = 50 →
      (validateInputs jd r).message ≠ some msgJobDescriptionTooShort) ∧
    ((jsTrim r).length = 49 → (jsTrim jd).length ≠ 0 →
      (validateInputs jd r).valid = false ∧
      strContains ((validateInputs jd r).message.getD "") "too short"
        = true) ∧
    ((jsTrim r).length = 50 →
      (validateInputs jd r).message ≠ some msgResumeTooShort) := by
  rw [validateInputs_eq_spec]
  refine ⟨?_, ?_, ?_, ?_⟩ <;> intros <;> split_ifs <;>
    first
      | omega
      | exact ⟨rfl, by decide⟩
      | simp [msgMissingJobDescription, msgMissingResume,
              msgJobDescriptionTooShort, msgResumeTooShort]

/-- Witness for the amended C3: a 49-character job description next to
a valid resume yields an invalid result whose message contains
"too short", and at 50 characters the job-description too-short message
is not produced. -/
theorem validateInputs_length_boundary_witness :
    ((validateInputs (List.replicate 49 'a') (List.replicate 50 'b')).valid
        = false ∧
      strContains
        ((validateInputs (List.replicate 49 'a')
            (List.replicate 50 'b')).message.getD "") "too short" = true) ∧
    (validateInputs (List.replicate 50 'a') (List.replicate 50 'b')).message
      ≠ some msgJobDescriptionTooShort :=
  ⟨(validateInputs_length_boundary
      (List.replicate 49 'a') (List.replicate 50 'b')).1
     (by decide) (by decide),
   (validateInputs_length_boundary
      (List.replicate 50 'a') (List.replicate 50 'b')).2.1 (by decide)⟩

/-- Counterexample to C4 as stated: the too-short message for the job
description starts with a capital letter, so it does not contain the
exact string "job description" (and likewise the resume too-short
message does not contain "resume"). -/
theorem validateInputs_message_case_mismatch :
    (validateInputs (List.replicate 49 'a') (List.replicate 50 'b')).message
      = some msgJobDescriptionTooShort ∧
    strContains msgJobDescriptionTooShort "job description" = false ∧
    strContains msgResumeTooShort "resume" = false := by
  refine ⟨by decide, by decide, by decide⟩

/-- C4 amended: every invalid-input error message produced by
validateInputs names the offending field up to letter case: lower-cased,
the message for an empty or too-short job_description contains
"job description", and the message for an empty or too-short resume
contains "resume". -/
theorem validateInputs_message_names_field (jd r : JSString) :
    ((jsTrim jd).length = 0 →
      strContainsLower ((validateInputs jd r).message.getD "")
        "job description" = true) ∧
    ((jsTrim jd).length ≠ 0 → (jsTrim r).length = 0 →
      strContainsLower ((validateInputs jd r).message.getD "")
        "resume" = true) ∧
    ((jsTrim jd).length ≠ 0 → (jsTrim r).length ≠ 0 →
        (jsTrim jd).length < 50 →
      strContainsLower ((validateInputs jd r).message.getD "")
        "job description" = true) ∧
    (50 ≤ (jsTrim jd).length → (jsTrim r).length ≠ 0 →
        (jsTrim r).length < 50 →
      strContainsLower ((validateInputs jd r).message.getD "")
        "resume" = true) := by
  rw [validateInputs_eq_spec]
  refine ⟨?_, ?_, ?_, ?_⟩ <;> intros <;> split_ifs <;>
    first | decide | omega

/-- Witness for the amended C4: with both fields empty the message
names the job description, and with a valid job description but a
short resume the message names the resume, in both cases up to case. -/
theorem validateInputs_message_names_field_witness :
    strContainsLower ((validateInputs [] []).message.getD "")
      "job description" = true ∧
    strContainsLower
      ((validateInputs (List.replicate 50 'a')
          (List.replicate 10 'b')).message.getD "") "resume" = true :=
  ⟨(validateInputs_message_names_field [] []).1 (by decide),
   (validateInputs_message_names_field
      (List.replicate 50 'a') (List.replicate 10 'b')).2.2.2
     (by decide) (by decide) (by decide)⟩

/-- At full progress the eased animation frame displays exactly the
target score. -/
theorem animateScoreFrame_at_completion (s : ℚ) :
    animateScoreFrame s 1 = s := by
  norm_num [animateScoreFrame, easeOutCubic, min_self]

/-- C5: the frontend score-display colour bands use exactly the spec's
verdict thresholds: once the animation completes, the score colour is
the Hire colour when the score is at least 75, the Hold colour when it
is at least 50 and below 75, and the Reject colour when it is below 50,
with no fourth tier at 85 or elsewhere. -/
theorem animateScore_color_matches_verdict_bands (s : ℚ) :
    (75 ≤ s → animateScoreFinalColor s = "#10b981") ∧
    (50 ≤ s → s < 75 → animateScoreFinalColor s = "#f59e0b") ∧
    (s < 50 → animateScoreFinalColor s = "#ef4444") := by
  unfold animateScoreFinalColor
  rw [animateScoreFrame_at_completion]
  unfold scoreColorAt
  refine ⟨?_, ?_, ?_⟩ <;> intros <;> split_ifs <;>
    first | rfl | linarith

/-- Witness for C5: a score of 85 still gets the Hire colour (no
separate tier), 60 the Hold colour, 49 the Reject colour. -/
theorem animateScore_color_matches_verdict_bands_witness :
    animateScoreFinalColor 85 = "#10b981" ∧
    animateScoreFinalColor 60 = "#f59e0b" ∧
    animateScoreFinalColor 49 = "#ef4444" :=
  ⟨(animateScore_color_matches_verdict_bands 85).1 (by norm_num),
   (animateScore_color_matches_verdict_bands 60).2.1
     (by norm_num) (by norm_num),
   (animateScore_color_matches_verdict_bands 49).2.2 (by norm_num)⟩

/-- C6: whenever valid inputs meet a non-ok response or a thrown
fetch/parse error, the catch branch runs showError, after which the
error message element is visible and the results section and loading
indicator are both hidden, so no partially populated result is ever
displayed. -/
theorem evaluateResume_error_path_shows_only_error
    (s0 : UIState) (jd r : JSString) (o : FetchOutcome)
    (hv : (validateInputs jd r).valid = true)
    (he : ∀ d, o ≠ FetchOutcome.success d) :
    (evaluateResume s0 jd r o).finalState.errorVisible = true ∧
    (evaluateResume s0 jd r o).finalState.resultsVisible = false ∧
    (evaluateResume s0 jd r o).finalState.loadingVisible = false := by
  cases o with
  | success d => exact absurd rfl (he d)
  | httpError e =>
      refine ⟨?_, ?_, ?_⟩ <;>
        simp [evaluateResume, hv, showError, showLoading, hideError]
  | jsError m =>
      refine ⟨?_, ?_, ?_⟩ <;>
        simp [evaluateResume, hv, showError, showLoading, hideError]

/-- Witness for C6: valid 50-character inputs with a thrown fetch error
leave only the error element visible. -/
theorem evaluateResume_error_path_shows_only_error_witness :
    (validateInputs (List.replicate 50 'a') (List.replicate 50 'b')).valid
      = true ∧
    (evaluateResume initUI (List.replicate 50 'a') (List.replicate 50 'b')
        (FetchOutcome.jsError none)).finalState.errorVisible = true :=
  ⟨by decide,
   (evaluateResume_error_path_shows_only_error initUI
      (List.replicate 50 'a') (List.replicate 50 'b')
      (FetchOutcome.jsError none) (by decide) (by simp)).1⟩

/-- C8: after every complete execution of evaluateResume, whether it
ends by validation failure, thrown error, or successful display, the
evaluate button ends in the enabled state: the finally block re-enables
it on every path that disabled it, and the early validation-failure
return never disables it. -/
theorem evaluateResume_button_reenabled
    (s0 : UIState) (jd r : JSString) (o : FetchOutcome)
    (h : s0.buttonDisabled = false) :
    (evaluateResume s0 jd r o).finalState.buttonDisabled = false := by
  by_cases hv : (validateInputs jd r).valid = false
  · simp [evaluateResume, hv, showError, h]
  · cases o <;>
      simp [evaluateResume, hv, showError, showLoading, hideError,
        hideLoading, displayResults]

/-- Witness for C8: starting from the page-load state the button is
enabled again after a run that fails validation. -/
theorem evaluateResume_button_reenabled_witness :
    initUI.buttonDisabled = false ∧
    (evaluateResume initUI [] [] (FetchOutcome.jsError none)).finalState.buttonDisabled
      = false :=
  ⟨by decide,
   evaluateResume_button_reenabled initUI [] []
     (FetchOutcome.jsError none) (by decide)⟩

/-- C9: at the end of every evaluateResume execution at most one of the
error-message element and the results section is visible: showError
hides the results section, and the success path calls showLoading
(hiding error and results) before displayResults reveals only the
results section. -/
theorem evaluateResume_error_results_exclusive
    (s0 : UIState) (jd r : JSString) (o : FetchOutcome) :
    (evaluateResume s0 jd r o).finalState.errorVisible = false ∨
    (evaluateResume s0 jd r o).finalState.resultsVisible = false := by
  by_cases hv : (validateInputs jd r).valid = false
  · right
    simp [evaluateResume, hv, showError]
  · cases o with
    | success d =>
        left
        simp [evaluateResume, hv, showLoading, hideError, hideLoading,
          displayResults]
    | httpError e =>
        right
        simp [evaluateResume, hv, showError, showLoading, hideError]
    | jsError m =>
        right
        simp [evaluateResume, hv, showError, showLoading, hideError]

/-- C10: the request body POSTed to /evaluate carries the textarea
contents verbatim and untrimmed: validation inspects the trimmed
lengths, but the job_description and resume strings sent to the server
are the raw input values, including leading or trailing whitespace. -/
theorem evaluateResume_sends_raw_texts
    (s0 : UIState) (jd r : JSString) (o : FetchOutcome)
    (hv : (validateInputs jd r).valid = true) :
    (evaluateResume s0 jd r o).requests
      = [{ job_description := jd, resume := r }] := by
  cases o <;> simp [evaluateResume, hv]

/-- Witness for C10: whitespace-padded inputs pass validation and are
sent exactly as typed, not in their trimmed form. -/
theorem evaluateResume_sends_raw_texts_witness :
    (validateInputs (' ' :: List.replicate 60 'a' ++ [' '])
        (' ' :: List.replicate 60 'b' ++ [' '])).valid = true ∧
    jsTrim (' ' :: List.replicate 60 'a' ++ [' '])
      ≠ (' ' :: List.replicate 60 'a' ++ [' ']) ∧
    (evaluateResume initUI (' ' :: List.replicate 60 'a' ++ [' '])
        (' ' :: List.replicate 60 'b' ++ [' '])
        (FetchOutcome.jsError none)).requests
      = [{ job_description := ' ' :: List.replicate 60 'a' ++ [' ']
           resume := ' ' :: List.replicate 60 'b' ++ [' '] }] :=
  ⟨by decide, by decide,
   evaluateResume_sends_raw_texts initUI
     (' ' :: List.replicate 60 'a' ++ [' '])
     (' ' :: List.replicate 60 'b' ++ [' '])
     (FetchOutcome.jsError none) (by decide)⟩

/-- The dot product is symmetric in its two arguments. -/
theorem dotProduct_comm (a b : List ℝ) : dotProduct a b = dotProduct b a := by
  unfold dotProduct
  rw [List.zipWith_comm_of_comm (fun x y => x * y) mul_comm]

/-- C7: for every pair of vectors of equal dimension, cosine similarity
is symmetric in its two arguments. -/
theorem cosine_similarity_symm (a b : List ℝ) (h : a.length = b.length) :
    cosine_similarity a b = cosine_similarity b a := by
  unfold cosine_similarity
  rw [if_pos h, if_pos h.symm]
  by_cases hz : vecNorm a = 0 ∨ vecNorm b = 0
  · rw [if_pos hz, if_pos (Or.symm hz)]
  · rw [if_neg hz, if_neg (fun hc => hz (Or.symm hc)),
      dotProduct_comm a b, mul_comm (vecNorm a) (vecNorm b)]

/-- Witness for C7: symmetry applied to the concrete pair
[1, 2] and [3, 4]. -/
theorem cosine_similarity_symm_witness :
    ([(1 : ℝ), 2]).length = ([(3 : ℝ), 4]).length ∧
    cosine_similarity [(1 : ℝ), 2] [(3 : ℝ), 4]
      = cosine_similarity [(3 : ℝ), 4] [(1 : ℝ), 2] :=
  ⟨rfl, cosine_similarity_symm [(1 : ℝ), 2] [(3 : ℝ), 4] rfl⟩
